import Mathlib

/-
  Verification of the MOE (Mixture of Experts) dispatch layer of the
  nextjs-ai-chatbot repository, as implemented in
  src/lib/ai/providers/moe.ts and consumed by lib/ai/providers.ts and
  the chat route handler.

  The embedding is shallow: the outcome of each remote interaction
  (the GET /health probe and the POST /process/sync call) is an explicit
  environment value describing what the network returned, and every
  source function becomes a total Lean function of that environment.
  Dynamically-typed JavaScript values are modelled by the inductive
  type JSValue below.
-/

namespace MOE

/-- A dynamically typed JavaScript value, as far as the dispatch code
inspects one: null, undefined, booleans, numbers, strings, arrays and
plain objects (a list of named fields). Numbers are modelled by Int;
none of the embedded functions depends on fractional numeric values. -/
inductive JSValue where
  | vNull
  | vUndefined
  | vBool (b : Bool)
  | vNum (n : Int)
  | vStr (s : String)
  | vArr (elems : List JSValue)
  | vObj (fields : List (String × JSValue))

/-- JavaScript truthiness test, negated: the values for which `!v` is
true (null, undefined, false, 0, the empty string). Arrays and objects
are always truthy. -/
def falsy : JSValue → Bool
  | .vNull => true
  | .vUndefined => true
  | .vBool b => !b
  | .vNum n => n == 0
  | .vStr s => s == ""
  | .vArr _ => false
  | .vObj _ => false

/-- Property access `v[key]` on a JavaScript value: a present object
field yields its value, a missing field and every non-object receiver
yield undefined. (Access on null or undefined throws in JavaScript;
the embedded functions below only perform it where the source either
guards against those receivers or catches the resulting TypeError.) -/
def getField (v : JSValue) (key : String) : JSValue :=
  match v with
  | .vObj fields => (fields.lookup key).getD .vUndefined
  | _ => .vUndefined

/-- The string elements of an array, in order: the translation of
`parts.filter(part => typeof part === 'string')` viewed as a list of
strings, ready to be joined. -/
def stringParts (parts : List JSValue) : List String :=
  parts.filterMap fun p =>
    match p with
    | .vStr s => some s
    | _ => none

/-- Embedding of `extractMessageText` (moe.ts lines 119-136): guard
`!message || !message.content` returns the empty string; string content
is returned unchanged; array content keeps only its string elements,
joined by single spaces; anything else yields the empty string. -/
def extractMessageText (message : JSValue) : String :=
  let content := getField message "content"
  if falsy message || falsy content then ""
  else
    match content with
    | .vStr s => s
    | .vArr parts => String.intercalate " " (stringParts parts)
    | _ => ""

/-- The behaviour claim C10 ascribes to extractMessageText, written
from the words of the claim alone: empty string for a null/undefined
message, a message without a content field, or content that is neither
a string nor an array; string content unchanged; array content filtered
to its string elements and joined by single spaces. -/
def extractMessageTextClaimed (message : JSValue) : String :=
  match message with
  | .vNull => ""
  | .vUndefined => ""
  | _ =>
    match getField message "content" with
    | .vStr s => s
    | .vArr parts => String.intercalate " " (stringParts parts)
    | _ => ""

/-- The JSON body of a GET /health response, as far as
checkMOEAvailability reads it: its status field (absent when the body
lacks one) and its models_loaded field. -/
structure HealthBody where
  status : Option String
  models_loaded : Option Bool

/-- What the network returned for the GET /health probe issued by one
call to checkMOEAvailability: the 5-second abort timer fired, the fetch
rejected with a transport error, or an HTTP response arrived with the
given ok flag and (when response.json() succeeds) parsed body. -/
inductive HealthFetchOutcome where
  | timeout
  | networkError
  | response (ok : Bool) (body : Option HealthBody)

/-- Embedding of `checkMOEAvailability` (moe.ts lines 42-64): a thrown
abort or transport or JSON-parse error is caught and yields false; a
non-ok response yields false; an ok response yields the truth of
`data.status === 'healthy' && data.models_loaded`. The total return
type records that the function never throws. -/
def checkMOEAvailability : HealthFetchOutcome → Bool
  | .timeout => false
  | .networkError => false
  | .response ok body =>
    if !ok then false
    else
      match body with
      | none => false
      | some data => data.status == some "healthy" && data.models_loaded == some true

/-- The JSON body of a successful POST /process/sync response
(interface MOEResponse in moe.ts). -/
structure MOEResponse where
  result : String
  expert_used : String
  confidence : Rat
  processing_time : Rat
  input_features : Option (List (String × Rat))

/-- The error value thrown by processMOEText (class MOEError in
moe.ts): a message and an optional HTTP status. -/
structure MOEError where
  message : String
  status : Option Nat
deriving DecidableEq

/-- The caller-supplied argument of processMOEText (interface
MOERequestOptions in moe.ts): an optional task name and an optional
options record. -/
structure MOERequestOptions where
  task : Option String
  opts : Option JSValue

/-- The request body actually sent to POST /process/sync:
`JSON.stringify({ text, task, options })` in moe.ts line 85-89. -/
structure MOEApiRequest where
  text : String
  task : String
  reqOptions : JSValue

/-- What the network returned for one POST /process/sync call: the
abort timer fired after MOE_TIMEOUT_MS, the fetch rejected with a
transport error carrying a message, or an HTTP response arrived with
the given ok flag, status code, status text, and body (an error value
when response.json() throws). -/
inductive ProcessFetchOutcome where
  | timeout
  | networkError (message : String)
  | response (ok : Bool) (status : Nat) (statusText : String) (body : Except String MOEResponse)

/-- Embedding of `processMOEText` (moe.ts lines 72-114). The first
component is the request body the call sends to the endpoint (task
defaulting to "process", options to the empty record, exactly as the
destructuring defaults do); the second is the outcome: the parsed
response on success, or the MOEError the source throws — 408 for an
abort, the HTTP status for a non-ok response, a wrapped message for
any other failure. -/
def processMOEText (text : String) (o : MOERequestOptions) (outcome : ProcessFetchOutcome) :
    MOEApiRequest × Except MOEError MOEResponse :=
  let task := o.task.getD "process"
  let reqOptions := o.opts.getD (JSValue.vObj [])
  let sent : MOEApiRequest := ⟨text, task, reqOptions⟩
  match outcome with
  | .timeout => (sent, .error ⟨"MOE API request timed out", some 408⟩)
  | .networkError m => (sent, .error ⟨"MOE API request failed: " ++ m, none⟩)
  | .response ok status statusText body =>
    if !ok then
      (sent, .error ⟨"MOE API returned " ++ toString status ++ ": " ++ statusText, some status⟩)
    else
      match body with
      | .ok r => (sent, .ok r)
      | .error m => (sent, .error ⟨"MOE API request failed: " ++ m, none⟩)

/-- The process-call outcomes claim C1 calls failures: a timeout, a
transport error, or an expert error response (non-ok status or
malformed body). These are exactly the outcomes on which processMOEText
throws. -/
def processOutcomeFails : ProcessFetchOutcome → Bool
  | .timeout => true
  | .networkError _ => true
  | .response ok _ _ body =>
    !ok ||
      match body with
      | .ok _ => false
      | .error _ => true

/-- The object processMOERequest returns to its caller. The source
returns either the five-field success object (moe.ts lines 166-172) or
the bare object `{ usedFallback: true }` (lines 149 and 175); Option
fields model presence or absence of each property on the returned
JavaScript object. -/
structure MOERequestResult where
  result : Option String
  expertUsed : Option String
  confidence : Option Rat
  processingTime : Option Rat
  usedFallback : Bool
deriving DecidableEq

/-- The bare fallback object `{ usedFallback: true }` that
processMOERequest returns on unavailability and from its catch-all
handler: no result, expertUsed, confidence, processingTime or error
property is present on it. -/
def fallbackResult : MOERequestResult :=
  ⟨none, none, none, none, true⟩

/-- The predicate of the filter callback `m => m.role === 'user'`
(moe.ts line 154): true exactly when the role property is the string
"user". -/
def isUserMessage (m : JSValue) : Bool :=
  match getField m "role" with
  | .vStr s => s == "user"
  | _ => false

/-- Embedding of `messages.filter(m => m.role === 'user')` (moe.ts
lines 153-155). Property access on a null or undefined element throws
a TypeError in JavaScript, which the surrounding try/catch of
processMOERequest absorbs; the error case records that. Elements are
visited left to right, as Array.prototype.filter does. -/
def filterUserMessages : List JSValue → Except String (List JSValue)
  | [] => .ok []
  | m :: rest =>
    match m with
    | .vNull => .error "TypeError: cannot read properties of null"
    | .vUndefined => .error "TypeError: cannot read properties of undefined"
    | _ =>
      match filterUserMessages rest with
      | .error e => .error e
      | .ok tail => .ok (if isUserMessage m then m :: tail else tail)

/-- The remote-world environment one processMOERequest call runs in:
what the health probe would observe, and what the processing call
would observe were it issued. -/
structure Env where
  health : HealthFetchOutcome
  process : ProcessFetchOutcome

/-- Observability instrumentation for one processMOERequest call: how
many GET /health probes it issued and the list of request bodies it
sent to POST /process/sync, in order. -/
structure DispatchTrace where
  healthProbes : Nat
  processCalls : List MOEApiRequest

/-- Embedding of the `processMOERequest` method of the object returned
by `createMOEProvider` (moe.ts lines 141-179). The whole body sits in
a try/catch whose catch returns `{ usedFallback: true }`, so the
function always returns a value and never throws; the total Lean type
records that. It calls checkMOEAvailability exactly once (hence the
fixed healthProbes count of 1), returns the bare fallback object when
that yields false, otherwise takes the last user message (throwing,
into the catch, when there is none), and issues exactly one
processMOEText call, with only the extracted text — the options
argument of processMOERequest, which callers use to pass expertModel,
is never read. -/
def processMOERequest (env : Env) (messages : List JSValue) (options : JSValue) :
    MOERequestResult × DispatchTrace :=
  let isMOEAvailable := checkMOEAvailability env.health
  let step : MOERequestResult × List MOEApiRequest :=
    if !isMOEAvailable then
      (fallbackResult, [])
    else
      match filterUserMessages messages with
      | .error _ => (fallbackResult, [])
      | .ok userMessages =>
        match userMessages.getLast? with
        | none => (fallbackResult, [])
        | some lastUserMessage =>
          let userText := extractMessageText lastUserMessage
          let call := processMOEText userText ⟨none, none⟩ env.process
          match call.2 with
          | .error _ => (fallbackResult, [call.1])
          | .ok moeResponse =>
            (⟨some moeResponse.result, some moeResponse.expert_used,
              some moeResponse.confidence, some moeResponse.processing_time, false⟩,
             [call.1])
  (step.1, ⟨1, step.2⟩)

/-- A sequence of checkMOEAvailability calls, one per caller. The
source (moe.ts lines 42-64) keeps no state between calls — the module
has no health cache, no TTL and no in-flight-probe registry — so each
call unconditionally issues its own fetch and any interleaving of N
concurrent calls performs the same N probes as the sequential run; the
i-th element of the argument is the outcome of the probe issued by the
i-th caller. -/
def runAvailabilityQueries (outcomes : List HealthFetchOutcome) : List Bool :=
  outcomes.map checkMOEAvailability

/-- A health probe outcome reporting the expert service ready:
HTTP ok with body status "healthy" and models_loaded true. -/
def healthyOutcome : HealthFetchOutcome :=
  .response true (some ⟨some "healthy", some true⟩)

/-- A health probe outcome reporting the expert service not ready (all
experts unhealthy): HTTP ok with body status "unhealthy" and
models_loaded false. -/
def unhealthyOutcome : HealthFetchOutcome :=
  .response true (some ⟨some "unhealthy", some false⟩)

/-- A successful processing response attributed to the byt5 expert. -/
def okMOEResponse : MOEResponse :=
  ⟨"routed output", "byt5", 87/100, 123, none⟩

/-- An environment where the health probe reports ready and the
processing call succeeds. -/
def envOk : Env :=
  ⟨healthyOutcome, .response true 200 "OK" (.ok okMOEResponse)⟩

/-- An environment where the health probe reports the service not
ready. -/
def envUnhealthy : Env :=
  ⟨unhealthyOutcome, .timeout⟩

/-- An environment where the health probe fails with a transport
error. -/
def envDown : Env :=
  ⟨.networkError, .timeout⟩

/-- A user message whose content is the string "hello". -/
def userHello : JSValue :=
  .vObj [("role", .vStr "user"), ("content", .vStr "hello")]

/-- A user message whose content is the string "hi". -/
def userHi : JSValue :=
  .vObj [("role", .vStr "user"), ("content", .vStr "hi")]

/-- An options argument forcing an expert id that no registry knows. -/
def optsUnknownExpert : JSValue :=
  .vObj [("expertModel", .vStr "no-such-expert")]

/-- The options argument the moe-expert-byt5 middleware in
lib/ai/providers.ts passes to processMOERequest. -/
def optsByt5 : JSValue :=
  .vObj [("expertModel", .vStr "byt5")]

/-- On every failing process-call outcome (timeout, transport error,
non-ok status, malformed body), processMOEText yields the thrown
MOEError, never a parsed response. -/
theorem processMOEText_error_of_fails (text : String) (o : MOERequestOptions)
    (outcome : ProcessFetchOutcome) (h : processOutcomeFails outcome = true) :
    ∃ e, (processMOEText text o outcome).2 = Except.error e := by
  cases outcome with
  | timeout => exact ⟨_, rfl⟩
  | networkError m => exact ⟨_, rfl⟩
  | response ok status statusText body =>
    cases ok with
    | false => exact ⟨_, rfl⟩
    | true =>
      cases body with
      | ok r => simp [processOutcomeFails] at h
      | error m => exact ⟨_, rfl⟩

/-- Claim C1: for every messages array and options, processMOERequest
returns a completed result value (its total type: the catch-all handler
means no exception escapes), and every expert-unavailability failure —
a health check answering false for any reason, or a processing-call
timeout, transport error, or expert error response — yields a result
whose usedFallback field is true. -/
theorem processMOERequest_absorbs_unavailability (env : Env) (messages : List JSValue)
    (options : JSValue)
    (h : checkMOEAvailability env.health = false ∨ processOutcomeFails env.process = true) :
    (processMOERequest env messages options).1.usedFallback = true := by
  rcases h with h | h
  · simp [processMOERequest, h, fallbackResult]
  · cases hav : checkMOEAvailability env.health with
    | false => simp [processMOERequest, hav, fallbackResult]
    | true =>
      cases hfm : filterUserMessages messages with
      | error e => simp [processMOERequest, hav, hfm, fallbackResult]
      | ok userMessages =>
        cases hl : userMessages.getLast? with
        | none => simp [processMOERequest, hav, hfm, hl, fallbackResult]
        | some m =>
          obtain ⟨e, he⟩ :=
            processMOEText_error_of_fails (extractMessageText m) ⟨none, none⟩ env.process h
          simp [processMOERequest, hav, hfm, hl, he, fallbackResult]

/-- Witness for claim C1 at a concrete input: a timed-out health probe
is an unavailability failure, and the dispatch returns usedFallback
true. -/
theorem processMOERequest_absorbs_unavailability_witness :
    (checkMOEAvailability HealthFetchOutcome.timeout = false ∨
      processOutcomeFails ProcessFetchOutcome.timeout = true) ∧
    (processMOERequest ⟨HealthFetchOutcome.timeout, ProcessFetchOutcome.timeout⟩ [userHello]
        (JSValue.vObj [])).1.usedFallback = true :=
  ⟨Or.inl (by decide),
   processMOERequest_absorbs_unavailability _ _ _ (Or.inl (by decide))⟩

/-- Claim C2 counterexample: a request forcing the unknown expert id
"no-such-expert", in an environment where the service is healthy and
the processing call succeeds, returns an ordinary success result with
usedFallback false — no ConfigurationError or UnknownExpertError is
surfaced (processMOERequest cannot throw at all), and the unknown
forced id changes nothing. -/
theorem unknown_forced_expert_not_surfaced :
    (processMOERequest envOk [userHello] optsUnknownExpert).1 =
      ⟨some "routed output", some "byt5", some (87/100), some 123, false⟩ ∧
    (processMOERequest envOk [userHello] optsUnknownExpert).1.usedFallback = false := by
  exact ⟨rfl, rfl⟩

/-- Claim C2 (amended): dispatch never inspects its options argument —
in particular a forced expert id, known or unknown, is never validated
against any registry and never surfaces an error; the result is
identical whatever the options are. -/
theorem processMOERequest_ignores_options (env : Env) (messages : List JSValue)
    (o₁ o₂ : JSValue) :
    processMOERequest env messages o₁ = processMOERequest env messages o₂ := rfl

/-- Claim C3, evaluated at the failing input: with the service healthy
and the caller forcing expertModel byt5 exactly as the
moe-expert-byt5 middleware does, the one request sent to the
processing endpoint carries task "process" and an empty options
record — the expert-model option was dropped, so the service
auto-routes instead of being forced to byt5. -/
theorem expert_model_option_not_forwarded :
    (processMOERequest envOk [userHi] optsByt5).2.processCalls =
      [⟨"hi", "process", JSValue.vObj []⟩] := rfl

/-- Claim C4 counterexample: when the health check reports the service
unusable, the returned result does have usedFallback true, but it is
the bare fallback object — its expertUsed field is absent rather than
the string "fallback", its confidence field is absent rather than 0,
and no error is recorded on it. -/
theorem all_unhealthy_fallback_fields_absent :
    (processMOERequest envUnhealthy [userHello] (JSValue.vObj [])).1.usedFallback = true ∧
    (processMOERequest envUnhealthy [userHello] (JSValue.vObj [])).1.expertUsed ≠ some "fallback" ∧
    (processMOERequest envUnhealthy [userHello] (JSValue.vObj [])).1.confidence ≠ some 0 ∧
    (processMOERequest envUnhealthy [userHello] (JSValue.vObj [])).1.result = none := by
  decide

/-- Claim C4 (amended): for every dispatch in which the health check
reports the service unusable, the returned result is exactly the bare
object with usedFallback true — the expertUsed, confidence,
processingTime, result and error properties are all absent. -/
theorem unavailable_returns_bare_fallback (env : Env) (messages : List JSValue)
    (options : JSValue) (h : checkMOEAvailability env.health = false) :
    (processMOERequest env messages options).1 = fallbackResult := by
  simp [processMOERequest, h]

/-- Witness for the amended claim C4 at a concrete input: a body
reporting status "unhealthy" makes the health check answer false and
the dispatch return the bare fallback object. -/
theorem unavailable_returns_bare_fallback_witness :
    checkMOEAvailability envUnhealthy.health = false ∧
    (processMOERequest envUnhealthy [] (JSValue.vObj [])).1 = fallbackResult :=
  ⟨by decide, unavailable_returns_bare_fallback envUnhealthy [] (JSValue.vObj []) (by decide)⟩

/-- Claim C5: whenever the availability check reports the service
unusable, the dispatch sends no request at all to the processing
endpoint and immediately returns a result with usedFallback true. -/
theorem no_process_call_when_unavailable (env : Env) (messages : List JSValue)
    (options : JSValue) (h : checkMOEAvailability env.health = false) :
    (processMOERequest env messages options).2.processCalls = [] ∧
    (processMOERequest env messages options).1.usedFallback = true := by
  constructor <;> simp [processMOERequest, h, fallbackResult]

/-- Witness for claim C5 at a concrete input: a transport-failing
health probe yields an unusable verdict, no processing call, and a
fallback result. -/
theorem no_process_call_when_unavailable_witness :
    checkMOEAvailability envDown.health = false ∧
    ((processMOERequest envDown [userHello] (JSValue.vObj [])).2.processCalls = [] ∧
     (processMOERequest envDown [userHello] (JSValue.vObj [])).1.usedFallback = true) :=
  ⟨by decide, no_process_call_when_unavailable envDown [userHello] (JSValue.vObj []) (by decide)⟩

/-- Claim C6: checkMOEAvailability answers true exactly when the probe
completed with an HTTP-ok response whose parsed body has status
"healthy" and models_loaded true; a timeout, transport failure, non-ok
status, or unparseable or negative body all answer false, and the
total return type records that no exception escapes. -/
theorem checkMOEAvailability_true_iff (o : HealthFetchOutcome) :
    checkMOEAvailability o = true ↔
      ∃ d : HealthBody, o = HealthFetchOutcome.response true (some d) ∧
        d.status = some "healthy" ∧ d.models_loaded = some true := by
  cases o with
  | timeout => simp [checkMOEAvailability]
  | networkError => simp [checkMOEAvailability]
  | response ok body =>
    cases ok with
    | false => simp [checkMOEAvailability]
    | true =>
      cases body with
      | none => simp [checkMOEAvailability]
      | some d =>
        simp [checkMOEAvailability]

/-- Claim C7 counterexample: immediately consecutive availability
queries do not answer from any cached verdict. A first query that
observes a ready service answers true; a second query issued right
after — within any positive TTL — still depends entirely on its own
fresh probe and answers false when that probe times out. No cached
record, TTL, or cache-consulting path exists in checkMOEAvailability
for the second query to answer from. -/
theorem consecutive_availability_queries_disagree :
    checkMOEAvailability healthyOutcome = true ∧
    checkMOEAvailability HealthFetchOutcome.timeout = false := by
  decide

/-- Claim C7 (amended): health verdicts are not cached — every single
dispatch issues exactly one fresh outbound health probe before
answering, regardless of any earlier verdict. -/
theorem every_dispatch_issues_one_probe (env : Env) (messages : List JSValue)
    (options : JSValue) :
    (processMOERequest env messages options).2.healthProbes = 1 := rfl

/-- The processing endpoint is reached at most once per dispatch: the
source has no retry path at all. -/
theorem processCalls_length_le_one (env : Env) (messages : List JSValue)
    (options : JSValue) :
    (processMOERequest env messages options).2.processCalls.length ≤ 1 := by
  unfold processMOERequest
  dsimp only
  split
  · simp
  · split
    · simp
    · split
      · simp
      · split <;> simp

/-- Claim C8: per dispatch the processing endpoint is invoked at most
twice — in fact at most once, since the fallback path performs no
retry at all, so the at-most-one-retry bound holds. -/
theorem process_endpoint_called_at_most_twice (env : Env) (messages : List JSValue)
    (options : JSValue) :
    (processMOERequest env messages options).2.processCalls.length ≤ 2 :=
  le_trans (processCalls_length_le_one env messages options) (by omega)

/-- Claim C9 counterexample: two callers querying availability
concurrently (the module keeps no shared state between calls, so the
interleaved run equals the sequential one) consume two distinct
outbound probes and can receive different verdicts — impossible if a
single coalesced probe had been issued and its one result shared by
both callers. -/
theorem concurrent_callers_distinct_verdicts :
    runAvailabilityQueries [healthyOutcome, HealthFetchOutcome.timeout] = [true, false] ∧
    ¬ ∃ v : Bool, runAvailabilityQueries [healthyOutcome, HealthFetchOutcome.timeout] = [v, v] := by
  decide

/-- Claim C9 (amended): probes are not coalesced — N callers issue N
probes, one each, and every callers verdict is a function of its own
probe outcome alone. -/
theorem caller_verdict_from_own_probe (outcomes : List HealthFetchOutcome) (i : Nat) :
    (runAvailabilityQueries outcomes).length = outcomes.length ∧
    (runAvailabilityQueries outcomes)[i]? = (outcomes[i]?).map checkMOEAvailability := by
  refine ⟨?_, ?_⟩ <;> simp [runAvailabilityQueries]

/-- Claim C10: extractMessageText is total (its Lean type returns a
string for every JSValue) and behaves exactly as described: empty
string for a falsy or content-less message and for content that is
neither a string nor an array; string content returned unchanged;
array content reduced to its string elements joined by single spaces,
silently dropping non-string parts — so an array of only object parts
yields the empty string. -/
theorem extractMessageText_meets_claim (m : JSValue) :
    extractMessageText m = extractMessageTextClaimed m := by
  cases m with
  | vNull => rfl
  | vUndefined => rfl
  | vBool b => cases b <;> rfl
  | vNum n => simp [extractMessageText, extractMessageTextClaimed, falsy, getField]
  | vStr s => simp [extractMessageText, extractMessageTextClaimed, falsy, getField]
  | vArr elems => rfl
  | vObj fields =>
    cases hc : getField (JSValue.vObj fields) "content" with
    | vNull => simp [extractMessageText, extractMessageTextClaimed, falsy, hc]
    | vUndefined => simp [extractMessageText, extractMessageTextClaimed, falsy, hc]
    | vBool b => cases b <;> simp [extractMessageText, extractMessageTextClaimed, falsy, hc]
    | vNum n => simp [extractMessageText, extractMessageTextClaimed, falsy, hc, ite_self]
    | vStr s =>
      by_cases hs : s = ""
      · subst hs
        simp [extractMessageText, extractMessageTextClaimed, falsy, hc]
      · simp [extractMessageText, extractMessageTextClaimed, falsy, hc, hs]
    | vArr elems => simp [extractMessageText, extractMessageTextClaimed, falsy, hc]
    | vObj f2 => simp [extractMessageText, extractMessageTextClaimed, falsy, hc]

end MOE
